import Mathlib

/-!
Verification of the Envolees backtest engine against its specification.

The development shallowly embeds the core of the repository in Lean 4:

* `src/envolees/backtest/position.py` — `OpenPosition` (trailing stop,
  effective stop, exit detection, P&L), `PendingOrder`, `TradeRecord`;
* `src/envolees/backtest/engine.py` — the parts of `BacktestEngine` that the
  claims are about: `_try_trigger_pending`, `_update_signal`,
  `_close_position`;
* `src/envolees/backtest/prop_sim.py` — `DailyState`, and the
  `on_trade_closed` hook of `PropSimulator`;
* `src/envolees/strategy/donchian_breakout.py` — `compute_entry_sl_tp`;
* `src/envolees/indicators/{ema,atr,donchian}.py` and the rolling quantile
  used in `prepare_indicators`;
* `src/envolees/output/compare.py` — `evaluate_oos_eligibility`,
  `_generate_shortlist_for_tier`, `export_tiered_shortlists`.

Python floats are modelled as `ℚ`; pandas NaN cells are modelled as `none`
in `Option ℚ`.  Timestamps are opaque integers (they are only copied
around by the modelled code, never inspected).
-/

namespace Envolees

/-- Trade direction, `Literal["LONG", "SHORT"]` in the source. -/
inductive Direction where
  | LONG
  | SHORT
deriving DecidableEq, Repr

/-- `ExitReason = Literal["SL", "TP", "TRAIL"]` in `position.py`. -/
inductive ExitReason where
  | SL
  | TP
  | TRAIL
deriving DecidableEq, Repr

/-- `exit_mode` configuration value (`"fixed"` or `"trailing_atr"`). -/
inductive ExitMode where
  | fixed
  | trailing_atr
deriving DecidableEq, Repr

/-- The fields of `Config` (src/envolees/config.py) that the embedded code
reads.  Python floats become `ℚ`. -/
structure Config where
  start_balance : ℚ
  risk_per_trade : ℚ
  sl_atr : ℚ
  tp_r : ℚ
  exit_mode : ExitMode
  trailing_atr : ℚ
  trailing_activation_r : ℚ
  conservative_same_bar : Bool
  max_concurrent_trades : ℕ
  stop_after_n_losses : ℕ
  daily_kill_switch : ℚ
deriving Repr

/-- `OpenPosition` dataclass of `src/envolees/backtest/position.py`.
Timestamps are opaque (`ℤ`). -/
structure OpenPosition where
  direction : Direction
  entry : ℚ
  sl : ℚ
  tp : ℚ
  ts_signal : ℤ
  ts_entry : ℤ
  atr_signal : ℚ
  entry_bar_idx : ℕ
  risk_cash : ℚ
  best_price : ℚ
  trailing_sl : ℚ
  trailing_atr_dist : ℚ
  trailing_activation_price : ℚ
deriving DecidableEq, Repr

namespace OpenPosition

/-- Construction of an `OpenPosition` with the dataclass defaults
(`best_price = 0`, `trailing_sl = 0`, `trailing_atr_dist = 0`,
`trailing_activation_price = 0`) followed by `__post_init__`, which replaces
a zero `best_price` by `entry` and a zero `trailing_sl` by `sl`. -/
def make (direction : Direction) (entry sl tp : ℚ) (ts_signal ts_entry : ℤ)
    (atr_signal : ℚ) (entry_bar_idx : ℕ) (risk_cash : ℚ) : OpenPosition :=
  { direction := direction
    entry := entry
    sl := sl
    tp := tp
    ts_signal := ts_signal
    ts_entry := ts_entry
    atr_signal := atr_signal
    entry_bar_idx := entry_bar_idx
    risk_cash := risk_cash
    best_price := if (0 : ℚ) = 0 then entry else 0
    trailing_sl := if (0 : ℚ) = 0 then sl else 0
    trailing_atr_dist := 0
    trailing_activation_price := 0 }

/-- `risk_points` property: `abs(entry - sl)`. -/
def risk_points (p : OpenPosition) : ℚ := |p.entry - p.sl|

/-- `effective_sl` property: for LONG `max(sl, trailing_sl)`; for SHORT,
`sl` when `trailing_sl == 0.0`, else `min(sl, trailing_sl)`. -/
def effective_sl (p : OpenPosition) : ℚ :=
  match p.direction with
  | .LONG => max p.sl p.trailing_sl
  | .SHORT => if p.trailing_sl = 0 then p.sl else min p.sl p.trailing_sl

/-- `update_trailing(high, low)`; the Python method mutates `best_price` and
`trailing_sl` in place, so the embedding returns the updated position. -/
def update_trailing (p : OpenPosition) (high low : ℚ) : OpenPosition :=
  if p.trailing_atr_dist ≤ 0 then p
  else
    match p.direction with
    | .LONG =>
      let bp := if p.best_price < high then high else p.best_price
      if 0 < p.trailing_activation_price ∧ bp < p.trailing_activation_price then
        { p with best_price := bp }
      else
        let new_trailing := bp - p.trailing_atr_dist
        if p.trailing_sl < new_trailing then
          { p with best_price := bp, trailing_sl := new_trailing }
        else
          { p with best_price := bp }
    | .SHORT =>
      let bp := if p.best_price = 0 ∨ low < p.best_price then low else p.best_price
      if 0 < p.trailing_activation_price ∧ p.trailing_activation_price < bp then
        { p with best_price := bp }
      else
        let new_trailing := bp + p.trailing_atr_dist
        if p.trailing_sl = 0 ∨ new_trailing < p.trailing_sl then
          { p with best_price := bp, trailing_sl := new_trailing }
        else
          { p with best_price := bp }

/-- `compute_pnl_r(exit_price)`: returns `0` when `risk_points ≤ 0`,
else signed P&L divided by `risk_points`. -/
def compute_pnl_r (p : OpenPosition) (exit_price : ℚ) : ℚ :=
  if p.risk_points ≤ 0 then 0
  else
    let pnl_points :=
      match p.direction with
      | .LONG => exit_price - p.entry
      | .SHORT => p.entry - exit_price
    pnl_points / p.risk_points

/-- The `path_sl_first` quantity of the same-bar heuristic in `check_exit`:
for LONG `max(0, open - eff_sl) + (tp - eff_sl)`, for SHORT
`max(0, eff_sl - open) + (eff_sl - tp)`, taking the post-`update_trailing`
effective stop. -/
def path_sl_first (p : OpenPosition) (open_price : ℚ) : ℚ :=
  match p.direction with
  | .LONG => max 0 (open_price - p.effective_sl) + (p.tp - p.effective_sl)
  | .SHORT => max 0 (p.effective_sl - open_price) + (p.effective_sl - p.tp)

/-- The exit reason the SL branch of `check_exit` would report: `TRAIL` when
`trailing_atr_dist > 0` and the (post-update) effective SL differs from the
initial SL, else `SL`. -/
def sl_reason (p : OpenPosition) : ExitReason :=
  if 0 < p.trailing_atr_dist ∧ p.effective_sl ≠ p.sl then .TRAIL else .SL

/-- The `hit_sl` boolean computed by `check_exit` (on the position already
updated by `update_trailing`): LONG → `low ≤ eff_sl`, SHORT → `high ≥ eff_sl`. -/
def hit_sl_b (q : OpenPosition) (high low : ℚ) : Bool :=
  match q.direction with
  | .LONG => low ≤ q.effective_sl
  | .SHORT => q.effective_sl ≤ high

/-- The `hit_tp` boolean computed by `check_exit`: `tp_active` (`tp != 0`)
and LONG → `high ≥ tp`, SHORT → `low ≤ tp`. -/
def hit_tp_b (q : OpenPosition) (high low : ℚ) : Bool :=
  (decide (q.tp ≠ 0)) &&
    (match q.direction with
     | .LONG => decide (q.tp ≤ high)
     | .SHORT => decide (low ≤ q.tp))

/-- `check_exit(high, low, conservative_same_bar, open_price)`.  Returns the
position after its internal `update_trailing` together with the optional
`(exit_reason, exit_price)` pair.  The local booleans `hit_sl` / `hit_tp`
and their rewriting by the same-bar resolution block mirror the Python
control flow statement by statement. -/
def check_exit (p : OpenPosition) (high low : ℚ)
    (conservative_same_bar : Bool) (open_price : Option ℚ) :
    OpenPosition × Option (ExitReason × ℚ) :=
  let q := p.update_trailing high low
  let eff_sl := q.effective_sl
  let slr := q.sl_reason
  let hit_sl : Bool := hit_sl_b q high low
  let hit_tp : Bool := hit_tp_b q high low
  let hits : Bool × Bool :=
    if hit_sl && hit_tp then
      match open_price with
      | some op =>
        let bar_range := high - low
        if 0 < bar_range then
          if 3 / 2 * bar_range < q.path_sl_first op then
            (false, hit_tp)
          else
            (hit_sl, false)
        else
          (hit_sl, false)
      | none =>
        if conservative_same_bar then (hit_sl, false) else (hit_sl, hit_tp)
    else
      (hit_sl, hit_tp)
  if hits.1 then (q, some (slr, eff_sl))
  else if hits.2 then (q, some (.TP, q.tp))
  else (q, none)

theorem update_trailing_direction (p : OpenPosition) (h l : ℚ) :
    (p.update_trailing h l).direction = p.direction := by
  unfold update_trailing
  repeat' first | rfl | split | dsimp only

theorem update_trailing_sl (p : OpenPosition) (h l : ℚ) :
    (p.update_trailing h l).sl = p.sl := by
  unfold update_trailing
  repeat' first | rfl | split | dsimp only

theorem update_trailing_tp (p : OpenPosition) (h l : ℚ) :
    (p.update_trailing h l).tp = p.tp := by
  unfold update_trailing
  repeat' first | rfl | split | dsimp only

theorem update_trailing_dist (p : OpenPosition) (h l : ℚ) :
    (p.update_trailing h l).trailing_atr_dist = p.trailing_atr_dist := by
  unfold update_trailing
  repeat' first | rfl | split | dsimp only

end OpenPosition

/-- Quick sanity evaluation: a LONG position with SL 98 and TP 102, bar
`high=103, low=97, open=101` (scenario 3 of the spec): SL wins. -/
example :
    ((OpenPosition.make .LONG 100 98 102 0 0 2 0 100).check_exit 103 97 true
        (some 101)).2 = some (.SL, 98) := by
  norm_num [OpenPosition.make, OpenPosition.check_exit, OpenPosition.update_trailing,
    OpenPosition.effective_sl, OpenPosition.sl_reason, OpenPosition.path_sl_first,
    OpenPosition.hit_sl_b, OpenPosition.hit_tp_b]

/-- Sanity: with the SL far away the SL-first path is implausible
(`23 > 1.5 × 14`), so the heuristic awards TP. -/
example :
    ((OpenPosition.make .LONG 100 90 102 0 0 2 0 100).check_exit 103 89 true
        (some 101)).2 = some (.TP, 102) := by
  norm_num [OpenPosition.make, OpenPosition.check_exit, OpenPosition.update_trailing,
    OpenPosition.effective_sl, OpenPosition.sl_reason, OpenPosition.path_sl_first,
    OpenPosition.hit_sl_b, OpenPosition.hit_tp_b]

/-- Claim C1: for every open position and every bar on which both the
effective stop (after the trailing update) and the take-profit are hit,
`check_exit` with an `open_price` applies the path-plausibility rule — it
returns the TP exit exactly when `path_sl_first > 1.5 × (high − low)` and
the SL (or TRAIL) exit otherwise, with equality resolving to SL — and with
`open_price` absent and `conservative_same_bar = true` the SL exit wins.
The bar is a genuine OHLC bar: `low ≤ open ≤ high`. -/
theorem claim_C1_same_bar_resolution (p : OpenPosition) (high low op : ℚ)
    (hlo : low ≤ op) (hhi : op ≤ high)
    (hsl : OpenPosition.hit_sl_b (p.update_trailing high low) high low = true)
    (htp : OpenPosition.hit_tp_b (p.update_trailing high low) high low = true) :
    (∀ csb : Bool,
      p.check_exit high low csb (some op) =
        (p.update_trailing high low,
          if 3 / 2 * (high - low) < (p.update_trailing high low).path_sl_first op then
            some (.TP, (p.update_trailing high low).tp)
          else
            some ((p.update_trailing high low).sl_reason,
              (p.update_trailing high low).effective_sl)))
    ∧ p.check_exit high low true none =
        (p.update_trailing high low,
          some ((p.update_trailing high low).sl_reason,
            (p.update_trailing high low).effective_sl)) := by
  set q := p.update_trailing high low with hq
  constructor
  · intro csb
    by_cases hr : 0 < high - low
    · simp only [OpenPosition.check_exit, ← hq, hsl, htp, Bool.and_self, if_true, if_pos hr]
      by_cases hpath : 3 / 2 * (high - low) < q.path_sl_first op
      · simp [hpath, htp]
      · simp [hpath, hsl]
    · have hba : high = low := le_antisymm (by linarith) (by linarith)
      have hpath : ¬ 3 / 2 * (high - low) < q.path_sl_first op := by
        have hop : op = low := le_antisymm (hba ▸ hhi) hlo
        unfold OpenPosition.path_sl_first
        cases hd : q.direction with
        | LONG =>
          simp only [OpenPosition.hit_sl_b, hd, decide_eq_true_eq] at hsl
          simp only [OpenPosition.hit_tp_b, hd, Bool.and_eq_true, decide_eq_true_eq] at htp
          have h1 : max 0 (op - q.effective_sl) = 0 :=
            max_eq_left (by simp only [hop]; linarith)
          dsimp only
          rw [h1]
          have : q.tp ≤ q.effective_sl := by
            calc q.tp ≤ high := htp.2
            _ = low := hba
            _ ≤ q.effective_sl := hsl
          nlinarith
        | SHORT =>
          simp only [OpenPosition.hit_sl_b, hd, decide_eq_true_eq] at hsl
          simp only [OpenPosition.hit_tp_b, hd, Bool.and_eq_true, decide_eq_true_eq] at htp
          have h1 : max 0 (q.effective_sl - op) = 0 :=
            max_eq_left (by simp only [hop]; linarith [hba ▸ hsl])
          dsimp only
          rw [h1]
          have : q.effective_sl ≤ q.tp := by
            calc q.effective_sl ≤ high := hsl
            _ = low := hba
            _ ≤ q.tp := htp.2
          nlinarith
      simp only [OpenPosition.check_exit, ← hq, hsl, htp, Bool.and_self, if_true,
        if_neg hr]
      simp [hpath]
  · simp only [OpenPosition.check_exit, ← hq, hsl, htp, Bool.and_self, if_true]

/-- Witness for Claim C1 at a concrete input: the LONG position with SL 98
and TP 102 and the bar `open=101, high=103, low=97` hits both levels; the
theorem then computes the SL exit (path 7 against threshold 9). -/
theorem claim_C1_same_bar_resolution_witness :
    (OpenPosition.make .LONG 100 98 102 0 0 2 0 100).check_exit 103 97 true
        (some 101) =
      ((OpenPosition.make .LONG 100 98 102 0 0 2 0 100).update_trailing 103 97,
        some (.SL, 98)) := by
  have h := (claim_C1_same_bar_resolution (OpenPosition.make .LONG 100 98 102 0 0 2 0 100)
    103 97 101 (by norm_num) (by norm_num)
    (by norm_num [OpenPosition.make, OpenPosition.update_trailing, OpenPosition.hit_sl_b,
      OpenPosition.effective_sl])
    (by norm_num [OpenPosition.make, OpenPosition.update_trailing, OpenPosition.hit_tp_b])).1 true
  rw [h]
  norm_num [OpenPosition.make, OpenPosition.update_trailing, OpenPosition.path_sl_first,
    OpenPosition.effective_sl, OpenPosition.sl_reason]

/-- Claim C10: in `check_exit` without an open price the SL branch is tested
first, so whenever the (post-update) effective stop is hit the returned exit
is the SL (or TRAIL) exit — for any value of `conservative_same_bar`, in
particular when it is `false` — and a TP exit can only be returned when the
SL is not hit. -/
theorem claim_C10_no_open_price_sl_first (p : OpenPosition) (high low : ℚ) :
    (∀ csb : Bool,
      OpenPosition.hit_sl_b (p.update_trailing high low) high low = true →
        p.check_exit high low csb none =
          (p.update_trailing high low,
            some ((p.update_trailing high low).sl_reason,
              (p.update_trailing high low).effective_sl)))
    ∧ ∀ (csb : Bool) (x : ℚ),
        (p.check_exit high low csb none).2 = some (.TP, x) →
          OpenPosition.hit_sl_b (p.update_trailing high low) high low = false := by
  constructor
  · intro csb hsl
    cases htp : OpenPosition.hit_tp_b (p.update_trailing high low) high low <;>
      cases csb <;>
        simp [OpenPosition.check_exit, hsl, htp]
  · intro csb x heq
    by_contra hne
    have hsl : OpenPosition.hit_sl_b (p.update_trailing high low) high low = true := by
      revert hne
      cases OpenPosition.hit_sl_b (p.update_trailing high low) high low <;> simp
    cases htp : OpenPosition.hit_tp_b (p.update_trailing high low) high low <;>
      cases csb <;>
        simp only [OpenPosition.check_exit, hsl, htp, Bool.and_self, Bool.and_false,
          if_true, if_false, Bool.false_eq_true, Option.some.injEq, Prod.mk.injEq] at heq <;>
        · rcases heq with ⟨h1, _⟩
          revert h1
          unfold OpenPosition.sl_reason
          split <;> simp

/-- Witness for Claim C10: part one at a bar hitting both SL and TP with
`conservative_same_bar = false` (the SL exit is still returned), part two at
a bar hitting only the TP. -/
theorem claim_C10_no_open_price_sl_first_witness :
    ((OpenPosition.make .LONG 100 98 102 0 0 2 0 100).check_exit 103 97 false none =
      ((OpenPosition.make .LONG 100 98 102 0 0 2 0 100).update_trailing 103 97,
        some (.SL, 98)))
    ∧ OpenPosition.hit_sl_b
        ((OpenPosition.make .LONG 100 90 102 0 0 2 0 100).update_trailing 103 95) 103 95 =
      false := by
  constructor
  · have h := (claim_C10_no_open_price_sl_first
      (OpenPosition.make .LONG 100 98 102 0 0 2 0 100) 103 97).1 false
      (by norm_num [OpenPosition.make, OpenPosition.update_trailing, OpenPosition.hit_sl_b,
        OpenPosition.effective_sl])
    rw [h]
    norm_num [OpenPosition.make, OpenPosition.update_trailing, OpenPosition.effective_sl,
      OpenPosition.sl_reason]
  · exact (claim_C10_no_open_price_sl_first
      (OpenPosition.make .LONG 100 90 102 0 0 2 0 100) 103 95).2 true 102
      (by norm_num [OpenPosition.make, OpenPosition.check_exit, OpenPosition.update_trailing,
        OpenPosition.effective_sl, OpenPosition.sl_reason, OpenPosition.hit_sl_b,
        OpenPosition.hit_tp_b])

/-- Claim C5 (code bug): the spec invariant "`effective_sl` is monotone
non-increasing for SHORT and `trailing_sl` never retreats" is violated by
the code.  A SHORT position with `sl = 10`, `entry = 8` and trailing
distance `2` reaches `effective_sl = 5`; on the next bar with `low = -2`
the new trailing level `best_price + dist` is exactly `0`, which
`effective_sl` treats as the "no trailing" sentinel, so the effective stop
retreats from `5` back to the initial `10`. -/
theorem claim_C5_effective_sl_can_retreat :
    (({ OpenPosition.make .SHORT 8 10 0 0 0 2 0 100 with
        trailing_atr_dist := 2 }).update_trailing 12 3).effective_sl = 5
    ∧ ((({ OpenPosition.make .SHORT 8 10 0 0 0 2 0 100 with
        trailing_atr_dist := 2 }).update_trailing 12 3).update_trailing 12 (-2)).effective_sl
        = 10
    ∧ (({ OpenPosition.make .SHORT 8 10 0 0 0 2 0 100 with
        trailing_atr_dist := 2 }).update_trailing 12 3).effective_sl
        < ((({ OpenPosition.make .SHORT 8 10 0 0 0 2 0 100 with
            trailing_atr_dist := 2 }).update_trailing 12 3).update_trailing 12 (-2)).effective_sl := by
  norm_num [OpenPosition.make, OpenPosition.update_trailing, OpenPosition.effective_sl]

/-- `Signal` dataclass of `src/envolees/strategy/base.py` (the `expiry_bars`
field defaults to 1 at the single construction site inside the engine). -/
structure Signal where
  direction : Direction
  entry_level : ℚ
  atr_at_signal : ℚ
  timestamp : ℤ
  expiry_bars : ℕ
deriving DecidableEq, Repr

/-- `PendingOrder` dataclass of `src/envolees/backtest/position.py`. -/
structure PendingOrder where
  direction : Direction
  entry_level : ℚ
  ts_signal : ℤ
  atr_signal : ℚ
  expiry_bar_idx : ℕ
deriving DecidableEq, Repr

namespace PendingOrder

/-- `is_expired(current_bar_idx)`. -/
def is_expired (o : PendingOrder) (current_bar_idx : ℕ) : Bool :=
  o.expiry_bar_idx < current_bar_idx

/-- `is_triggered(high, low)`: LONG when `high ≥ entry_level`, SHORT when
`low ≤ entry_level`. -/
def is_triggered (o : PendingOrder) (high low : ℚ) : Bool :=
  match o.direction with
  | .LONG => o.entry_level ≤ high
  | .SHORT => low ≤ o.entry_level

/-- `PendingOrder.from_signal(signal, current_bar_idx)`. -/
def from_signal (s : Signal) (current_bar_idx : ℕ) : PendingOrder :=
  { direction := s.direction
    entry_level := s.entry_level
    ts_signal := s.timestamp
    atr_signal := s.atr_at_signal
    expiry_bar_idx := current_bar_idx + s.expiry_bars }

end PendingOrder

/-- `DonchianBreakoutStrategy.compute_entry_sl_tp(signal, exec_penalty_atr)`
from `src/envolees/strategy/donchian_breakout.py`. -/
def compute_entry_sl_tp (cfg : Config) (signal : Signal) (exec_penalty_atr : ℚ) :
    ℚ × ℚ × ℚ :=
  let penalty := exec_penalty_atr * signal.atr_at_signal
  match signal.direction with
  | .LONG =>
    let entry := signal.entry_level + penalty
    let sl := entry - cfg.sl_atr * signal.atr_at_signal
    let risk_points := entry - sl
    let tp := entry + cfg.tp_r * risk_points
    (entry, sl, tp)
  | .SHORT =>
    let entry := signal.entry_level - penalty
    let sl := entry + cfg.sl_atr * signal.atr_at_signal
    let risk_points := sl - entry
    let tp := entry - cfg.tp_r * risk_points
    (entry, sl, tp)

/-- `TradeRecord` dataclass of `src/envolees/backtest/position.py`. -/
structure TradeRecord where
  ticker : String
  penalty_atr : ℚ
  direction : Direction
  ts_signal : ℤ
  ts_entry : ℤ
  ts_exit : ℤ
  entry : ℚ
  sl : ℚ
  tp : ℚ
  exit_price : ℚ
  exit_reason : ExitReason
  atr_signal : ℚ
  result_r : ℚ
  result_cash : ℚ
  balance_after : ℚ
  duration_bars : ℤ
deriving DecidableEq, Repr

/-- `DailyState` of `src/envolees/backtest/prop_sim.py`.  The `current_day`
field is omitted: the claims below never exercise the day-rollover path, and
`current_day` is only read there. -/
structure DailyState where
  start_equity : ℚ
  min_equity : ℚ
  losses_closed : ℕ
  halted : Bool
deriving DecidableEq, Repr

namespace DailyState

/-- `update_min_equity(equity)`. -/
def update_min_equity (d : DailyState) (equity : ℚ) : DailyState :=
  if equity < d.min_equity then { d with min_equity := equity } else d

/-- `daily_dd` property: `(start - min) / start`, and `0` when
`start_equity ≤ 0`. -/
def daily_dd (d : DailyState) : ℚ :=
  if d.start_equity ≤ 0 then 0 else (d.start_equity - d.min_equity) / d.start_equity

end DailyState

/-- `PropSimulator.on_trade_closed(result_r, balance)`: bump the loss
counter and halt after `stop_after_n_losses` losses, then re-check the
daily kill switch on the post-trade balance.  The simulator's violation
counters and peak tracking are not touched by this method. -/
def on_trade_closed (cfg : Config) (d : DailyState) (result_r balance : ℚ) :
    DailyState :=
  let d :=
    if result_r < 0 then
      let d := { d with losses_closed := d.losses_closed + 1 }
      if cfg.stop_after_n_losses ≤ d.losses_closed then { d with halted := true } else d
    else d
  let d := d.update_min_equity balance
  if cfg.daily_kill_switch ≤ d.daily_dd then { d with halted := true } else d

/-- The mutable attributes of `BacktestEngine` that the embedded methods
read or write.  `prop_daily` is the prop simulator's own `DailyState`
(`prop_sim.is_halted` is `prop_daily.halted`), distinct from the engine's
`daily_state` object; the equity curve and per-day statistics lists are
omitted because no embedded method reads them. -/
structure EngineState where
  cfg : Config
  ticker : String
  exec_penalty_atr : ℚ
  balance : ℚ
  open_positions : List OpenPosition
  pending_order : Option PendingOrder
  prop_daily : DailyState
  daily_state : DailyState
  trades : List TradeRecord

/-- `BacktestEngine.__init__`: starting balance, no positions, no pending
order, fresh daily state (all dataclass defaults), empty ledger. -/
def init_state (cfg : Config) (ticker : String) (exec_penalty_atr : ℚ) : EngineState :=
  { cfg := cfg
    ticker := ticker
    exec_penalty_atr := exec_penalty_atr
    balance := cfg.start_balance
    open_positions := []
    pending_order := none
    prop_daily := { start_equity := 0, min_equity := 0, losses_closed := 0, halted := false }
    daily_state := { start_equity := 0, min_equity := 0, losses_closed := 0, halted := false }
    trades := [] }

/-- `BacktestEngine._close_position(pos, exit_price, exit_reason, bar_idx,
ts)`: computes the R and cash results, adds the cash to the balance,
appends the `TradeRecord`, and lets the prop simulator re-check its halt
conditions (`on_trade_closed` followed by `update_min_equity`). -/
def close_position (s : EngineState) (pos : OpenPosition) (exit_price : ℚ)
    (exit_reason : ExitReason) (bar_idx : ℕ) (ts : ℤ) : EngineState :=
  let result_r := pos.compute_pnl_r exit_price
  let result_cash := result_r * pos.risk_cash
  let balance := s.balance + result_cash
  let record : TradeRecord :=
    { ticker := s.ticker
      penalty_atr := s.exec_penalty_atr
      direction := pos.direction
      ts_signal := pos.ts_signal
      ts_entry := pos.ts_entry
      ts_exit := ts
      entry := pos.entry
      sl := pos.sl
      tp := pos.tp
      exit_price := exit_price
      exit_reason := exit_reason
      atr_signal := pos.atr_signal
      result_r := result_r
      result_cash := result_cash
      balance_after := balance
      duration_bars := (bar_idx : ℤ) - (pos.entry_bar_idx : ℤ) }
  let prop_daily := on_trade_closed s.cfg s.prop_daily result_r balance
  let daily_state := s.daily_state.update_min_equity balance
  { s with
      balance := balance
      trades := s.trades ++ [record]
      prop_daily := prop_daily
      daily_state := daily_state }

/-- The `Signal` the engine rebuilds from a pending order inside
`_try_trigger_pending` (`expiry_bars` takes its dataclass default 1). -/
def trigger_signal (po : PendingOrder) : Signal :=
  { direction := po.direction
    entry_level := po.entry_level
    atr_at_signal := po.atr_signal
    timestamp := po.ts_signal
    expiry_bars := 1 }

/-- The trailing-stop configuration block of `_try_trigger_pending`: when
`exit_mode == "trailing_atr"`, set the trailing distance, zero the TP when
`tp_r == 0`, and set the activation price when `trailing_activation_r > 0`. -/
def configure_new_position (cfg : Config) (po : PendingOrder) (entry sl tp : ℚ)
    (ts : ℤ) (bar_idx : ℕ) (risk_cash : ℚ) : OpenPosition :=
  let new_pos := OpenPosition.make po.direction entry sl tp po.ts_signal ts
    po.atr_signal bar_idx risk_cash
  if cfg.exit_mode = .trailing_atr then
    let np := { new_pos with trailing_atr_dist := cfg.trailing_atr * po.atr_signal }
    let np := if cfg.tp_r = 0 then { np with tp := 0 } else np
    if 0 < cfg.trailing_activation_r then
      let risk := |entry - sl|
      match po.direction with
      | .LONG =>
        { np with trailing_activation_price := entry + cfg.trailing_activation_r * risk }
      | .SHORT =>
        { np with trailing_activation_price := entry - cfg.trailing_activation_r * risk }
    else np
  else new_pos

/-- `BacktestEngine._try_trigger_pending(high, low, bar_idx, ts)`: no-op when
there is no pending order, when it does not trigger, or when the prop
simulator is halted; otherwise recompute entry/SL/TP via the strategy
(`DonchianBreakoutStrategy.compute_entry_sl_tp`), build the position with
`risk_cash = balance × risk_per_trade`, configure the trailing stop, append
it to `open_positions` and consume the pending order. -/
def try_trigger_pending (s : EngineState) (high low : ℚ) (bar_idx : ℕ) (ts : ℤ) :
    EngineState × Option OpenPosition :=
  match s.pending_order with
  | none => (s, none)
  | some po =>
    if po.is_triggered high low = false then (s, none)
    else if s.prop_daily.halted then (s, none)
    else
      let est := compute_entry_sl_tp s.cfg (trigger_signal po) s.exec_penalty_atr
      let new_pos := configure_new_position s.cfg po est.1 est.2.1 est.2.2 ts bar_idx
        (s.balance * s.cfg.risk_per_trade)
      ({ s with open_positions := s.open_positions ++ [new_pos], pending_order := none },
        some new_pos)

/-- `BacktestEngine._update_signal`: clear the pending order while halted or
while the concurrency cap is reached; otherwise replace it from the freshly
generated signal (or clear it when the strategy emits none).  The signal the
strategy computes from the dataframe is an input here. -/
def update_signal (s : EngineState) (signal : Option Signal) (bar_idx : ℕ) :
    EngineState :=
  if s.prop_daily.halted then { s with pending_order := none }
  else if 0 < s.cfg.max_concurrent_trades ∧
      s.cfg.max_concurrent_trades ≤ s.open_positions.length then
    { s with pending_order := none }
  else
    match signal with
    | some sig => { s with pending_order := some (PendingOrder.from_signal sig bar_idx) }
    | none => { s with pending_order := none }

theorem configure_new_position_entry (cfg : Config) (po : PendingOrder)
    (entry sl tp : ℚ) (ts : ℤ) (bar_idx : ℕ) (rc : ℚ) :
    (configure_new_position cfg po entry sl tp ts bar_idx rc).entry = entry := by
  unfold configure_new_position OpenPosition.make
  repeat' first | rfl | split | dsimp only

theorem configure_new_position_sl (cfg : Config) (po : PendingOrder)
    (entry sl tp : ℚ) (ts : ℤ) (bar_idx : ℕ) (rc : ℚ) :
    (configure_new_position cfg po entry sl tp ts bar_idx rc).sl = sl := by
  unfold configure_new_position OpenPosition.make
  repeat' first | rfl | split | dsimp only

theorem configure_new_position_tp_trailing_zero (cfg : Config) (po : PendingOrder)
    (entry sl tp : ℚ) (ts : ℤ) (bar_idx : ℕ) (rc : ℚ)
    (h1 : cfg.exit_mode = .trailing_atr) (h2 : cfg.tp_r = 0) :
    (configure_new_position cfg po entry sl tp ts bar_idx rc).tp = 0 := by
  unfold configure_new_position OpenPosition.make
  simp only [h1, h2, if_true, if_pos rfl]
  repeat' first | rfl | split | dsimp only

theorem configure_new_position_tp_fixed (cfg : Config) (po : PendingOrder)
    (entry sl tp : ℚ) (ts : ℤ) (bar_idx : ℕ) (rc : ℚ)
    (h1 : cfg.exit_mode = .fixed) :
    (configure_new_position cfg po entry sl tp ts bar_idx rc).tp = tp := by
  unfold configure_new_position OpenPosition.make
  rw [if_neg (by simp [h1])]

/-- A `Config` with `exit_mode = "fixed"` and `tp_r = 0`, used as concrete
input by several witnesses. -/
def fixed_cfg : Config :=
  { start_balance := 10000
    risk_per_trade := 1 / 100
    sl_atr := 1
    tp_r := 0
    exit_mode := .fixed
    trailing_atr := 0
    trailing_activation_r := 0
    conservative_same_bar := true
    max_concurrent_trades := 0
    stop_after_n_losses := 4
    daily_kill_switch := 1 / 25 }

/-- Claim C2 (amended): `compute_entry_sl_tp` returns, for LONG,
`entry = entry_level + k × atr`, `sl = entry − sl_atr × atr` and
`tp = entry + tp_r × (entry − sl)` (SHORT symmetric); when `tp_r = 0` the
returned take-profit equals the entry (not `0`).  The take-profit of an
opened position is set to `0` (disabled) only by the engine's trailing
configuration block, when `exit_mode = trailing_atr` and `tp_r = 0`;
with `exit_mode = fixed` the position keeps the computed TP. -/
theorem claim_C2_entry_sl_tp (cfg : Config) (sig : Signal) (k : ℚ) :
    (sig.direction = .LONG →
      (compute_entry_sl_tp cfg sig k).1 = sig.entry_level + k * sig.atr_at_signal
      ∧ (compute_entry_sl_tp cfg sig k).2.1 =
          (compute_entry_sl_tp cfg sig k).1 - cfg.sl_atr * sig.atr_at_signal
      ∧ (compute_entry_sl_tp cfg sig k).2.2 =
          (compute_entry_sl_tp cfg sig k).1 +
            cfg.tp_r *
              ((compute_entry_sl_tp cfg sig k).1 - (compute_entry_sl_tp cfg sig k).2.1))
    ∧ (sig.direction = .SHORT →
      (compute_entry_sl_tp cfg sig k).1 = sig.entry_level - k * sig.atr_at_signal
      ∧ (compute_entry_sl_tp cfg sig k).2.1 =
          (compute_entry_sl_tp cfg sig k).1 + cfg.sl_atr * sig.atr_at_signal
      ∧ (compute_entry_sl_tp cfg sig k).2.2 =
          (compute_entry_sl_tp cfg sig k).1 -
            cfg.tp_r *
              ((compute_entry_sl_tp cfg sig k).2.1 - (compute_entry_sl_tp cfg sig k).1))
    ∧ (cfg.tp_r = 0 →
      (compute_entry_sl_tp cfg sig k).2.2 = (compute_entry_sl_tp cfg sig k).1)
    ∧ (∀ (po : PendingOrder) (entry sl tp : ℚ) (ts : ℤ) (bar_idx : ℕ) (rc : ℚ),
      cfg.exit_mode = .trailing_atr → cfg.tp_r = 0 →
        (configure_new_position cfg po entry sl tp ts bar_idx rc).tp = 0)
    ∧ (∀ (po : PendingOrder) (entry sl tp : ℚ) (ts : ℤ) (bar_idx : ℕ) (rc : ℚ),
      cfg.exit_mode = .fixed →
        (configure_new_position cfg po entry sl tp ts bar_idx rc).tp = tp) := by
  refine ⟨?_, ?_, ?_, ?_, ?_⟩
  · intro h
    refine ⟨?_, ?_, ?_⟩ <;> simp only [compute_entry_sl_tp, h] <;> ring
  · intro h
    refine ⟨?_, ?_, ?_⟩ <;> simp only [compute_entry_sl_tp, h] <;> ring
  · intro h
    cases hd : sig.direction <;> simp only [compute_entry_sl_tp, hd, h] <;> ring
  · intro po entry sl tp ts bar_idx rc h1 h2
    exact configure_new_position_tp_trailing_zero cfg po entry sl tp ts bar_idx rc h1 h2
  · intro po entry sl tp ts bar_idx rc h1
    exact configure_new_position_tp_fixed cfg po entry sl tp ts bar_idx rc h1

/-- Counterexample to Claim C2 as stated: with `tp_r = 0` and `sl_atr = 1`,
a LONG signal at level 100 with ATR 2 and no penalty yields
`(entry, sl, tp) = (100, 98, 100)` — the take-profit is the entry price,
not `0` — and in `fixed` exit mode the opened position keeps this nonzero
(hence active) take-profit. -/
theorem claim_C2_counterexample :
    compute_entry_sl_tp fixed_cfg
        { direction := .LONG, entry_level := 100, atr_at_signal := 2,
          timestamp := 0, expiry_bars := 1 } 0 = (100, 98, 100)
    ∧ ((100 : ℚ) ≠ 0)
    ∧ (configure_new_position fixed_cfg
        { direction := .LONG, entry_level := 100, ts_signal := 0, atr_signal := 2,
          expiry_bar_idx := 10 } 100 98 100 7 5 100).tp = 100 := by
  refine ⟨?_, by norm_num, ?_⟩
  · norm_num [compute_entry_sl_tp, fixed_cfg]
  · rfl

/-- Witness for Claim C2 at the same concrete signal: the LONG formulas and
the `tp_r = 0` consequence, instantiated and discharged. -/
theorem claim_C2_entry_sl_tp_witness :
    (compute_entry_sl_tp fixed_cfg
        { direction := .LONG, entry_level := 100, atr_at_signal := 2,
          timestamp := 0, expiry_bars := 1 } 0).1 = 100 + 0 * 2
    ∧ (compute_entry_sl_tp fixed_cfg
        { direction := .LONG, entry_level := 100, atr_at_signal := 2,
          timestamp := 0, expiry_bars := 1 } 0).2.2 =
      (compute_entry_sl_tp fixed_cfg
        { direction := .LONG, entry_level := 100, atr_at_signal := 2,
          timestamp := 0, expiry_bars := 1 } 0).1 := by
  constructor
  · have h := ((claim_C2_entry_sl_tp fixed_cfg
      { direction := .LONG, entry_level := 100, atr_at_signal := 2,
        timestamp := 0, expiry_bars := 1 } 0).1 rfl).1
    rw [h]
  · exact (claim_C2_entry_sl_tp fixed_cfg
      { direction := .LONG, entry_level := 100, atr_at_signal := 2,
        timestamp := 0, expiry_bars := 1 } 0).2.2.1 rfl

/-- The engine state used by the C3 counterexample: a fresh engine over
`fixed_cfg` with a pending LONG stop at 100 recorded at a bar where the ATR
was 0 (so entry and SL will coincide). -/
def degenerate_state : EngineState :=
  { init_state fixed_cfg "XAU" 0 with
      pending_order := some
        { direction := .LONG, entry_level := 100, ts_signal := 0, atr_signal := 0,
          expiry_bar_idx := 10 } }

/-- Counterexample to Claim C3 as stated: on a bar with `high = 101` the
pending order triggers, the computed entry and SL coincide
(`risk_points = 0`), and yet the fill is NOT rejected — a position is
created and returned, while the pending order is consumed. -/
theorem claim_C3_counterexample :
    (try_trigger_pending degenerate_state 101 99 5 7).1.open_positions =
      [OpenPosition.make .LONG 100 100 100 0 7 0 5 100]
    ∧ (try_trigger_pending degenerate_state 101 99 5 7).2 =
        some (OpenPosition.make .LONG 100 100 100 0 7 0 5 100)
    ∧ (try_trigger_pending degenerate_state 101 99 5 7).1.pending_order = none
    ∧ (OpenPosition.make .LONG 100 100 100 0 7 0 5 100).risk_points = 0 := by
  refine ⟨?_, ?_, ?_, ?_⟩ <;>
    norm_num [try_trigger_pending, degenerate_state, init_state, fixed_cfg,
      PendingOrder.is_triggered, compute_entry_sl_tp, trigger_signal,
      configure_new_position, OpenPosition.make, OpenPosition.risk_points] <;>
    decide

/-- Claim C3 (amended): a pending order that triggers on a bar while not
halted is always consumed and always creates a position, even when the
computed entry and stop-loss coincide; such a degenerate position has
`risk_points = 0` and its P&L is computed as `0` R at every exit price
(`compute_pnl_r` guards `risk_points ≤ 0`), so the eventual ledger row
carries a zero result instead of being suppressed. -/
theorem claim_C3_degenerate_fill_not_rejected (s : EngineState) (high low : ℚ)
    (bar_idx : ℕ) (ts : ℤ) (po : PendingOrder)
    (hpo : s.pending_order = some po)
    (htrig : po.is_triggered high low = true)
    (hhalt : s.prop_daily.halted = false)
    (hdeg : (compute_entry_sl_tp s.cfg (trigger_signal po) s.exec_penalty_atr).2.1 =
        (compute_entry_sl_tp s.cfg (trigger_signal po) s.exec_penalty_atr).1) :
    ∃ pos,
      try_trigger_pending s high low bar_idx ts =
        ({ s with open_positions := s.open_positions ++ [pos], pending_order := none },
          some pos)
      ∧ pos.risk_points = 0
      ∧ ∀ x, pos.compute_pnl_r x = 0 := by
  refine ⟨configure_new_position s.cfg po
    (compute_entry_sl_tp s.cfg (trigger_signal po) s.exec_penalty_atr).1
    (compute_entry_sl_tp s.cfg (trigger_signal po) s.exec_penalty_atr).2.1
    (compute_entry_sl_tp s.cfg (trigger_signal po) s.exec_penalty_atr).2.2
    ts bar_idx (s.balance * s.cfg.risk_per_trade), ?_, ?_, ?_⟩
  · unfold try_trigger_pending
    rw [hpo]
    simp [htrig, hhalt]
  · unfold OpenPosition.risk_points
    rw [configure_new_position_entry, configure_new_position_sl, hdeg]
    simp
  · intro x
    unfold OpenPosition.compute_pnl_r
    rw [if_pos]
    unfold OpenPosition.risk_points
    rw [configure_new_position_entry, configure_new_position_sl, hdeg]
    simp

/-- Witness for Claim C3 (amended) at the concrete degenerate state. -/
theorem claim_C3_degenerate_fill_not_rejected_witness :
    ∃ pos,
      try_trigger_pending degenerate_state 101 99 5 7 =
        ({ degenerate_state with
            open_positions := degenerate_state.open_positions ++ [pos],
            pending_order := none }, some pos)
      ∧ pos.risk_points = 0
      ∧ ∀ x, pos.compute_pnl_r x = 0 :=
  claim_C3_degenerate_fill_not_rejected degenerate_state 101 99 5 7
    { direction := .LONG, entry_level := 100, ts_signal := 0, atr_signal := 0,
      expiry_bar_idx := 10 }
    rfl
    (by norm_num [PendingOrder.is_triggered])
    rfl
    (by norm_num [degenerate_state, init_state, fixed_cfg, compute_entry_sl_tp,
      trigger_signal])

/-- Claim C7: while the prop simulator is halted, `_try_trigger_pending` is
a no-op — even a pending order whose trigger condition is met opens no
position and leaves the state untouched — and the bar's signal recompute
(`_update_signal`) then drops the pending order unconditionally. -/
theorem claim_C7_halted_no_new_position (s : EngineState) (high low : ℚ)
    (bar_idx : ℕ) (ts : ℤ) (hhalt : s.prop_daily.halted = true) :
    try_trigger_pending s high low bar_idx ts = (s, none)
    ∧ ∀ sig : Option Signal,
        (update_signal s sig bar_idx).pending_order = none
        ∧ (update_signal s sig bar_idx).open_positions = s.open_positions := by
  constructor
  · unfold try_trigger_pending
    cases hsp : s.pending_order with
    | none => rfl
    | some po =>
      cases htr : po.is_triggered high low <;> simp [htr, hhalt]
  · intro sig
    unfold update_signal
    simp [hhalt]

/-- Witness for Claim C7: a halted engine with a pending LONG order at 100
and a bar whose high 101 would trigger it. -/
theorem claim_C7_halted_no_new_position_witness :
    try_trigger_pending
        { degenerate_state with
            prop_daily := { degenerate_state.prop_daily with halted := true } }
        101 99 5 7 =
      ({ degenerate_state with
          prop_daily := { degenerate_state.prop_daily with halted := true } }, none)
    ∧ ∀ sig : Option Signal,
        (update_signal
          { degenerate_state with
              prop_daily := { degenerate_state.prop_daily with halted := true } }
          sig 5).pending_order = none
        ∧ (update_signal
            { degenerate_state with
                prop_daily := { degenerate_state.prop_daily with halted := true } }
            sig 5).open_positions =
          ({ degenerate_state with
              prop_daily := { degenerate_state.prop_daily with halted := true } }
            : EngineState).open_positions :=
  claim_C7_halted_no_new_position _ 101 99 5 7 rfl

/-- One call to `_close_position` during a run: the position being closed,
the exit price and reason, and the bar index / timestamp of the exit.
`balance` is assigned nowhere in `engine.py` except `__init__`
(`self.balance = cfg.start_balance`) and `_close_position`
(`self.balance += result_cash`), so a run's balance history is exactly a
fold of `close_position` over the closes it performs. -/
structure CloseEvent where
  pos : OpenPosition
  exit_price : ℚ
  exit_reason : ExitReason
  bar_idx : ℕ
  ts : ℤ

/-- Fold a sequence of position closes over the engine state. -/
def run_closes (s : EngineState) (evs : List CloseEvent) : EngineState :=
  evs.foldl (fun s e => close_position s e.pos e.exit_price e.exit_reason e.bar_idx e.ts) s

/-- Running balances: `cum_balances b [x₁, x₂, …] = [b+x₁, b+x₁+x₂, …]`. -/
def cum_balances (b : ℚ) : List ℚ → List ℚ
  | [] => []
  | x :: xs => (b + x) :: cum_balances (b + x) xs

theorem cum_balances_append (b : ℚ) (l : List ℚ) (x : ℚ) :
    cum_balances b (l ++ [x]) = cum_balances b l ++ [b + l.sum + x] := by
  induction l generalizing b with
  | nil => simp [cum_balances]
  | cons y ys ih =>
    simp only [List.cons_append, cum_balances, List.sum_cons]
    rw [show ys.append [x] = ys ++ [x] from rfl, ih]
    congr 2
    ring

theorem run_closes_invariant (evs : List CloseEvent) (s : EngineState) (b0 : ℚ)
    (hbal : s.balance = b0 + (s.trades.map TradeRecord.result_cash).sum)
    (hcum : s.trades.map TradeRecord.balance_after =
      cum_balances b0 (s.trades.map TradeRecord.result_cash)) :
    (run_closes s evs).balance =
      b0 + ((run_closes s evs).trades.map TradeRecord.result_cash).sum
    ∧ (run_closes s evs).trades.map TradeRecord.balance_after =
      cum_balances b0 ((run_closes s evs).trades.map TradeRecord.result_cash) := by
  induction evs generalizing s with
  | nil => exact ⟨hbal, hcum⟩
  | cons e es ih =>
    simp only [run_closes, List.foldl_cons]
    apply ih
    · simp only [close_position, List.map_append, List.sum_append, List.map_cons,
        List.map_nil, List.sum_cons, List.sum_nil]
      rw [hbal]
      ring
    · simp only [close_position, List.map_append, List.map_cons, List.map_nil]
      rw [cum_balances_append, hcum, hbal]

/-- Claim C6: starting from `__init__` (balance = `start_balance`, empty
ledger), after any sequence of position closes the engine balance equals
`start_balance` plus the sum of `result_cash` over the ledger, and each
recorded `balance_after` equals `start_balance` plus the running prefix sum
of `result_cash` — i.e. the invariant holds at every point of a run, since
`_close_position` is the only method that changes the balance or the
ledger. -/
theorem claim_C6_balance_equals_start_plus_results (cfg : Config) (ticker : String)
    (k : ℚ) (evs : List CloseEvent) :
    (run_closes (init_state cfg ticker k) evs).balance =
      cfg.start_balance +
        ((run_closes (init_state cfg ticker k) evs).trades.map TradeRecord.result_cash).sum
    ∧ (run_closes (init_state cfg ticker k) evs).trades.map TradeRecord.balance_after =
      cum_balances cfg.start_balance
        ((run_closes (init_state cfg ticker k) evs).trades.map TradeRecord.result_cash) :=
  run_closes_invariant evs (init_state cfg ticker k) cfg.start_balance
    (by simp [init_state]) (by simp [init_state, cum_balances])

/-! ### IS/OOS eligibility (`src/envolees/output/compare.py`)

`evaluate_oos_eligibility` builds human-readable note strings and then
classifies by *substring matching* on those strings, so the embedding keeps
the notes as genuine `String`s.  The numeric payloads interpolated into the
notes (Python `f"{x:.3f}"` etc.) are produced by an abstract formatter
`fmt : ℚ → String`; the only property the proofs use is that a formatted
number consists of digits, `.`, `-` and `%`.  The criteria are the
`OOSEligibility` dataclass defaults: `min_trades = 15`,
`min_expectancy = 0.0`, `min_pf = 1.2`, `max_dd = 0.05`,
`max_expectancy_drop = 0.50`, `max_pf_drop = 0.40`, so the interpolated
threshold texts are `"< 0.0"`, `"< 1.2"`, `"> 5%"`, `"> 50%"`. -/

/-- Python `pat in s` (substring test), prefix-at-`i` helper. -/
def startsWithChars : List Char → List Char → Bool
  | [], _ => true
  | _ :: _, [] => false
  | a :: as, b :: bs => a == b && startsWithChars as bs

/-- Python `pat in s` on char lists: some position of `l` starts with `pat`. -/
def containsL (l pat : List Char) : Bool :=
  (List.range (l.length + 1)).any fun i => startsWithChars pat (l.drop i)

/-- Python `pat in s` on strings. -/
def containsSub (s pat : String) : Bool := containsL s.data pat.data

theorem startsWithChars_subset {pat l : List Char}
    (h : startsWithChars pat l = true) : ∀ c ∈ pat, c ∈ l := by
  induction pat generalizing l with
  | nil => simp
  | cons a as ih =>
    cases l with
    | nil => simp [startsWithChars] at h
    | cons b bs =>
      simp only [startsWithChars, Bool.and_eq_true, beq_iff_eq] at h
      intro c hc
      rcases List.mem_cons.mp hc with rfl | hc
      · rw [h.1]; exact List.mem_cons_self _ _
      · exact List.mem_cons_of_mem _ (ih h.2 c hc)

theorem containsL_iff {l pat : List Char} :
    containsL l pat = true ↔
      ∃ i, i < l.length + 1 ∧ startsWithChars pat (l.drop i) = true := by
  simp [containsL, List.any_eq_true, List.mem_range]

theorem not_containsSub_of_char (s pat : String) (c : Char)
    (hc : c ∈ pat.data) (hs : c ∉ s.data) : containsSub s pat = false := by
  rw [Bool.eq_false_iff]
  intro h
  obtain ⟨i, _, hst⟩ := containsL_iff.mp h
  exact hs (List.drop_subset i s.data (startsWithChars_subset hst c hc))

theorem startsWithChars_append_left {pat l1 : List Char} (l2 : List Char)
    (h : startsWithChars pat l1 = true) : startsWithChars pat (l1 ++ l2) = true := by
  induction pat generalizing l1 with
  | nil => rfl
  | cons a as ih =>
    cases l1 with
    | nil => simp [startsWithChars] at h
    | cons b bs =>
      simp only [startsWithChars, Bool.and_eq_true, List.cons_append] at h ⊢
      exact ⟨h.1, ih h.2⟩

theorem containsL_append_right (a b pat : List Char)
    (h : containsL b pat = true) : containsL (a ++ b) pat = true := by
  rw [containsL_iff] at h ⊢
  obtain ⟨i, hi, hst⟩ := h
  refine ⟨a.length + i, ?_, ?_⟩
  · simp only [List.length_append]
    omega
  · rw [List.drop_append]
    exact hst

theorem containsL_of_start {l pat : List Char}
    (h : startsWithChars pat l = true) : containsL l pat = true :=
  containsL_iff.mpr ⟨0, by omega, by simpa⟩

/-- Characters a formatted number can contain. -/
def numeric_chars : List Char :=
  ['0', '1', '2', '3', '4', '5', '6', '7', '8', '9', '.', '-', '%']

/-- A payload string is a formatted number: digits, `.`, `-`, `%` only. -/
def payload_ok (v : String) : Prop := ∀ c ∈ v.data, c ∈ numeric_chars

theorem char_not_mem_note {v : String} (hv : payload_ok v) (a b : String)
    (c : Char) (ha : c ∉ a.data) (hb : c ∉ b.data) (hn : c ∉ numeric_chars) :
    c ∉ (a ++ v ++ b).data := by
  rw [String.data_append, String.data_append]
  intro hmem
  rcases List.mem_append.mp hmem with h | h
  · rcases List.mem_append.mp h with h | h
    · exact ha h
    · exact hn (hv c h)
  · exact hb h

/-- Note text `f"ExpR {exp:.3f} < {min_expectancy}"` (threshold renders as
`0.0`). -/
def note_expr_below (v : String) : String := "ExpR " ++ v ++ " < 0.0"

/-- Note text `f"PF {pf:.2f} < {min_pf}"` (threshold renders as `1.2`). -/
def note_pf_below (v : String) : String := "PF " ++ v ++ " < 1.2"

/-- Note text `f"DD {dd*100:.1f}% > {max_dd*100:.0f}%"`. -/
def note_dd_above (v : String) : String := "DD " ++ v ++ "% > 5%"

/-- Note text `f"ExpR drop {drop*100:.0f}% > {max_drop*100:.0f}%"`. -/
def note_exp_drop (v : String) : String := "ExpR drop " ++ v ++ "% > 50%"

/-- Note text `"PF drop significant"`. -/
def note_pf_drop : String := "PF drop significant"

/-- Note text `f"OOS trades ({n}) < {min_trades}"`. -/
def note_insufficient (v : String) : String := "OOS trades (" ++ v ++ ") < 15"

/-- The per-note criticality test of `evaluate_oos_eligibility`:
`"ExpR" in n and "< 0" in n or "PF" in n and "< 1" in n`. -/
def note_critical (n : String) : Bool :=
  (containsSub n "ExpR" && containsSub n "< 0") ||
    (containsSub n "PF" && containsSub n "< 1")

theorem note_expr_below_critical (v : String) :
    note_critical (note_expr_below v) = true := by
  have h1 : containsSub (note_expr_below v) "ExpR" = true := by
    unfold note_expr_below containsSub
    rw [String.data_append, String.data_append]
    exact containsL_of_start
      (startsWithChars_append_left _
        (startsWithChars_append_left _ (by decide)))
  have h2 : containsSub (note_expr_below v) "< 0" = true := by
    unfold note_expr_below containsSub
    rw [String.data_append]
    exact containsL_append_right _ _ _ (by decide)
  simp [note_critical, h1, h2]

theorem note_pf_below_critical (v : String) :
    note_critical (note_pf_below v) = true := by
  have h1 : containsSub (note_pf_below v) "PF" = true := by
    unfold note_pf_below containsSub
    rw [String.data_append, String.data_append]
    exact containsL_of_start
      (startsWithChars_append_left _
        (startsWithChars_append_left _ (by decide)))
  have h2 : containsSub (note_pf_below v) "< 1" = true := by
    unfold note_pf_below containsSub
    rw [String.data_append]
    exact containsL_append_right _ _ _ (by decide)
  simp [note_critical, h1, h2]

theorem note_dd_above_not_critical {v : String} (hv : payload_ok v) :
    note_critical (note_dd_above v) = false := by
  have h1 : containsSub (note_dd_above v) "ExpR" = false :=
    not_containsSub_of_char _ _ 'E' (by decide)
      (char_not_mem_note hv "DD " "% > 5%" 'E' (by decide) (by decide) (by decide))
  have h3 : containsSub (note_dd_above v) "PF" = false :=
    not_containsSub_of_char _ _ 'P' (by decide)
      (char_not_mem_note hv "DD " "% > 5%" 'P' (by decide) (by decide) (by decide))
  simp [note_critical, h1, h3]

theorem note_exp_drop_not_critical {v : String} (hv : payload_ok v) :
    note_critical (note_exp_drop v) = false := by
  have h2 : containsSub (note_exp_drop v) "< 0" = false :=
    not_containsSub_of_char _ _ '<' (by decide)
      (char_not_mem_note hv "ExpR drop " "% > 50%" '<' (by decide) (by decide) (by decide))
  have h3 : containsSub (note_exp_drop v) "PF" = false :=
    not_containsSub_of_char _ _ 'P' (by decide)
      (char_not_mem_note hv "ExpR drop " "% > 50%" 'P' (by decide) (by decide) (by decide))
  simp [note_critical, h2, h3]

theorem note_pf_drop_not_critical : note_critical note_pf_drop = false := by
  decide

/-- The columns of an OOS `results.csv` row read by the evaluator. -/
structure OosRow where
  n_trades : ℕ
  expectancy_r : ℚ
  profit_factor : ℚ
  max_daily_dd_pct : ℚ

/-- The columns of an IS `results.csv` row read by the evaluator. -/
structure IsRow where
  expectancy_r : ℚ
  profit_factor : ℚ

/-- The four possible statuses returned by `evaluate_oos_eligibility`. -/
inductive OosStatus where
  | valid
  | insufficient_trades
  | degraded
  | failed
deriving DecidableEq, Repr

/-- Note 2 fires: `oos.expectancy_r < min_expectancy` (default `0.0`). -/
def cond_exp_neg (oos : OosRow) : Prop := oos.expectancy_r < 0

/-- Note 3 fires: `oos.profit_factor < min_pf` (default `1.2`). -/
def cond_pf_low (oos : OosRow) : Prop := oos.profit_factor < 6 / 5

/-- Note 4 fires: `oos.max_daily_dd_pct > max_dd` (default `0.05`). -/
def cond_dd_high (oos : OosRow) : Prop := 1 / 20 < oos.max_daily_dd_pct

/-- Note 5a fires: IS expectancy positive and the OOS drop exceeds 50%. -/
def cond_exp_dropped (is_row : IsRow) (oos : OosRow) : Prop :=
  0 < is_row.expectancy_r ∧ 1 / 2 < 1 - oos.expectancy_r / is_row.expectancy_r

/-- Note 5b fires: IS PF above 1, PF-above-1 contraction exceeds 40%, and the
OOS PF is below the IS PF. -/
def cond_pf_dropped (is_row : IsRow) (oos : OosRow) : Prop :=
  1 < is_row.profit_factor ∧
    2 / 5 < 1 - (oos.profit_factor - 1) / (is_row.profit_factor - 1) ∧
    oos.profit_factor < is_row.profit_factor

instance (oos : OosRow) : Decidable (cond_exp_neg oos) := by
  unfold cond_exp_neg; infer_instance

instance (oos : OosRow) : Decidable (cond_pf_low oos) := by
  unfold cond_pf_low; infer_instance

instance (oos : OosRow) : Decidable (cond_dd_high oos) := by
  unfold cond_dd_high; infer_instance

instance (is_row : IsRow) (oos : OosRow) : Decidable (cond_exp_dropped is_row oos) := by
  unfold cond_exp_dropped; infer_instance

instance (is_row : IsRow) (oos : OosRow) : Decidable (cond_pf_dropped is_row oos) := by
  unfold cond_pf_dropped; infer_instance

/-- The notes list built by steps 2–5 of `evaluate_oos_eligibility`, in
source order. -/
def collect_notes (fmt : ℚ → String) (is_row : IsRow) (oos : OosRow) : List String :=
  (if cond_exp_neg oos then [note_expr_below (fmt oos.expectancy_r)] else [])
    ++ (if cond_pf_low oos then [note_pf_below (fmt oos.profit_factor)] else [])
    ++ (if cond_dd_high oos then [note_dd_above (fmt (oos.max_daily_dd_pct * 100))] else [])
    ++ (if cond_exp_dropped is_row oos then
        [note_exp_drop (fmt ((1 - oos.expectancy_r / is_row.expectancy_r) * 100))] else [])
    ++ (if cond_pf_dropped is_row oos then [note_pf_drop] else [])

/-- `evaluate_oos_eligibility(is_row, oos_row)` with the default
`OOSEligibility` criteria.  The Python function joins the notes with `"; "`
for its second return value; the embedding returns the list itself. -/
def evaluate_oos_eligibility (fmt : ℚ → String) (is_row : IsRow) (oos : OosRow) :
    OosStatus × List String :=
  if oos.n_trades < 15 then
    (.insufficient_trades, [note_insufficient (fmt (oos.n_trades : ℚ))])
  else
    let notes := collect_notes fmt is_row oos
    if notes = [] then (.valid, ["OOS validation passed"])
    else if notes.any note_critical = true ∨ 3 ≤ notes.length then (.failed, notes)
    else (.degraded, notes)

/-- Number of notes collected, as a function of the five conditions. -/
def note_count (is_row : IsRow) (oos : OosRow) : ℕ :=
  (if cond_exp_neg oos then 1 else 0) + (if cond_pf_low oos then 1 else 0)
    + (if cond_dd_high oos then 1 else 0)
    + (if cond_exp_dropped is_row oos then 1 else 0)
    + (if cond_pf_dropped is_row oos then 1 else 0)

theorem collect_notes_any_critical (fmt : ℚ → String)
    (hfmt : ∀ q, payload_ok (fmt q)) (is_row : IsRow) (oos : OosRow) :
    (collect_notes fmt is_row oos).any note_critical =
      (decide (cond_exp_neg oos) || decide (cond_pf_low oos)) := by
  unfold collect_notes
  split_ifs <;>
    simp_all [note_expr_below_critical, note_pf_below_critical,
      note_dd_above_not_critical (hfmt _), note_exp_drop_not_critical (hfmt _),
      note_pf_drop_not_critical]

theorem collect_notes_length (fmt : ℚ → String) (is_row : IsRow) (oos : OosRow) :
    (collect_notes fmt is_row oos).length = note_count is_row oos := by
  unfold collect_notes note_count
  split_ifs <;> simp

theorem collect_notes_nil (fmt : ℚ → String) (is_row : IsRow) (oos : OosRow) :
    collect_notes fmt is_row oos = [] ↔ note_count is_row oos = 0 := by
  unfold collect_notes note_count
  split_ifs <;> simp

/-- Claim C4 (amended): `evaluate_oos_eligibility` (default criteria)
returns `insufficient_trades` exactly when `oos.n_trades < 15`; otherwise
`valid` exactly when no note fired; `failed` exactly when the OOS
expectancy is negative, or the OOS profit factor is below the 1.2
threshold (the substring test `"< 1" in note` matches the threshold text
`"< 1.2"` of every PF note, so every PF-threshold note — not only PF < 1 —
is critical), or at least 3 notes fired; and `degraded` otherwise. -/
theorem note_count_pos_of_exp_neg (is_row : IsRow) (oos : OosRow)
    (h : cond_exp_neg oos) : 1 ≤ note_count is_row oos := by
  unfold note_count
  split_ifs with a b c d e <;> first | omega | exact absurd h a

theorem note_count_pos_of_pf_low (is_row : IsRow) (oos : OosRow)
    (h : cond_pf_low oos) : 1 ≤ note_count is_row oos := by
  unfold note_count
  split_ifs with a b c d e <;> first | omega | exact absurd h b

theorem claim_C4_eligibility_classification (fmt : ℚ → String)
    (hfmt : ∀ q, payload_ok (fmt q)) (is_row : IsRow) (oos : OosRow) :
    ((evaluate_oos_eligibility fmt is_row oos).1 = .insufficient_trades ↔
      oos.n_trades < 15)
    ∧ ((evaluate_oos_eligibility fmt is_row oos).1 = .valid ↔
      15 ≤ oos.n_trades ∧ note_count is_row oos = 0)
    ∧ ((evaluate_oos_eligibility fmt is_row oos).1 = .failed ↔
      15 ≤ oos.n_trades ∧
        (cond_exp_neg oos ∨ cond_pf_low oos ∨ 3 ≤ note_count is_row oos))
    ∧ ((evaluate_oos_eligibility fmt is_row oos).1 = .degraded ↔
      15 ≤ oos.n_trades ∧ ¬cond_exp_neg oos ∧ ¬cond_pf_low oos ∧
        1 ≤ note_count is_row oos ∧ note_count is_row oos ≤ 2) := by
  have hcrit := collect_notes_any_critical fmt hfmt is_row oos
  have hlen := collect_notes_length fmt is_row oos
  have hnil := collect_notes_nil fmt is_row oos
  by_cases hn : oos.n_trades < 15
  · have hst : (evaluate_oos_eligibility fmt is_row oos).1 = .insufficient_trades := by
      simp [evaluate_oos_eligibility, hn]
    exact ⟨iff_of_true hst hn,
      iff_of_false (by simp [hst]) (fun h => by omega),
      iff_of_false (by simp [hst]) (fun h => by have := h.1; omega),
      iff_of_false (by simp [hst]) (fun h => by have := h.1; omega)⟩
  · by_cases hempty : collect_notes fmt is_row oos = []
    · have hc0 : note_count is_row oos = 0 := hnil.mp hempty
      have hst : (evaluate_oos_eligibility fmt is_row oos).1 = .valid := by
        simp [evaluate_oos_eligibility, hn, hempty]
      refine ⟨iff_of_false (by simp [hst]) hn,
        iff_of_true hst ⟨by omega, hc0⟩,
        iff_of_false (by simp [hst]) ?_,
        iff_of_false (by simp [hst]) (fun h => by have := h.2.2.2.1; omega)⟩
      rintro ⟨-, h | h | h⟩
      · have := note_count_pos_of_exp_neg is_row oos h
        omega
      · have := note_count_pos_of_pf_low is_row oos h
        omega
      · omega
    · have hc1 : 1 ≤ note_count is_row oos := by
        rcases Nat.eq_zero_or_pos (note_count is_row oos) with h0 | h
        · exact absurd (hnil.mpr h0) hempty
        · exact h
      by_cases hfail : (collect_notes fmt is_row oos).any note_critical = true ∨
          3 ≤ (collect_notes fmt is_row oos).length
      · have hfail' : cond_exp_neg oos ∨ cond_pf_low oos ∨
            3 ≤ note_count is_row oos := by
          rcases hfail with h | h
          · rw [hcrit] at h
            rcases Bool.or_eq_true_iff.mp h with h | h
            · exact Or.inl (of_decide_eq_true h)
            · exact Or.inr (Or.inl (of_decide_eq_true h))
          · exact Or.inr (Or.inr (hlen ▸ h))
        have hst : (evaluate_oos_eligibility fmt is_row oos).1 = .failed := by
          simp only [evaluate_oos_eligibility, if_neg hn, if_neg hempty, if_pos hfail]
        refine ⟨iff_of_false (by simp [hst]) hn,
          iff_of_false (by simp [hst]) (fun h => by have := h.2; omega),
          iff_of_true hst ⟨by omega, hfail'⟩,
          iff_of_false (by simp [hst]) ?_⟩
        rintro ⟨-, h1, h2, -, h4⟩
        rcases hfail' with h | h | h
        · exact h1 h
        · exact h2 h
        · omega
      · have hnc : ¬cond_exp_neg oos ∧ ¬cond_pf_low oos ∧
            note_count is_row oos ≤ 2 := by
          push_neg at hfail
          obtain ⟨h1, h2⟩ := hfail
          rw [hcrit] at h1
          have h1' : ¬cond_exp_neg oos ∧ ¬cond_pf_low oos := by
            constructor <;> intro hc <;> apply h1 <;> simp [hc]
          exact ⟨h1'.1, h1'.2, by omega⟩
        have hst : (evaluate_oos_eligibility fmt is_row oos).1 = .degraded := by
          simp only [evaluate_oos_eligibility, if_neg hn, if_neg hempty, if_neg hfail]
        refine ⟨iff_of_false (by simp [hst]) hn,
          iff_of_false (by simp [hst]) (fun h => by have := h.2; omega),
          iff_of_false (by simp [hst]) ?_,
          iff_of_true hst ⟨by omega, hnc.1, hnc.2.1, hc1, hnc.2.2⟩⟩
        rintro ⟨-, h | h | h⟩
        · exact hnc.1 h
        · exact hnc.2.1 h
        · have := hnc.2.2
          omega

/-- Counterexample to Claim C4 as stated: with OOS trades 20, expectancy
0.5, profit factor 1.1 and daily DD 1%, the only note is the PF-threshold
note, the expectancy is not negative, the PF is not below 1, and fewer than
3 notes fired — yet the status is `failed`, because the substring test
`"< 1" in "PF 1.10 < 1.2"` marks the note critical. -/
theorem claim_C4_counterexample :
    (evaluate_oos_eligibility (fun _ => "0")
        { expectancy_r := 1 / 2, profit_factor := 11 / 10 }
        { n_trades := 20, expectancy_r := 1 / 2, profit_factor := 11 / 10,
          max_daily_dd_pct := 1 / 100 }).1 = .failed
    ∧ ¬((1 : ℚ) / 2 < 0) ∧ ¬((11 : ℚ) / 10 < 1)
    ∧ (evaluate_oos_eligibility (fun _ => "0")
        { expectancy_r := 1 / 2, profit_factor := 11 / 10 }
        { n_trades := 20, expectancy_r := 1 / 2, profit_factor := 11 / 10,
          max_daily_dd_pct := 1 / 100 }).2.length = 1 := by
  have hc : note_critical (note_pf_below "0") = true := by decide
  have hnotes : collect_notes (fun _ => "0")
      { expectancy_r := 1 / 2, profit_factor := 11 / 10 }
      { n_trades := 20, expectancy_r := 1 / 2, profit_factor := 11 / 10,
        max_daily_dd_pct := 1 / 100 } = [note_pf_below "0"] := by
    unfold collect_notes
    norm_num [cond_exp_neg, cond_pf_low, cond_dd_high, cond_exp_dropped, cond_pf_dropped]
  refine ⟨?_, by norm_num, by norm_num, ?_⟩ <;>
    · simp only [evaluate_oos_eligibility, hnotes]
      norm_num [hc]

theorem payload_ok_zero : payload_ok "0" := by
  unfold payload_ok
  decide

/-- Witness for Claim C4 (amended) at two concrete rows: PF 1.1 classifies
as `failed`; PF 1.3 with a DD note classifies as `degraded`. -/
theorem claim_C4_eligibility_classification_witness :
    (evaluate_oos_eligibility (fun _ => "0")
        { expectancy_r := 1 / 2, profit_factor := 11 / 10 }
        { n_trades := 20, expectancy_r := 1 / 2, profit_factor := 11 / 10,
          max_daily_dd_pct := 1 / 100 }).1 = .failed
    ∧ (evaluate_oos_eligibility (fun _ => "0")
        { expectancy_r := 1 / 2, profit_factor := 13 / 10 }
        { n_trades := 20, expectancy_r := 1 / 2, profit_factor := 13 / 10,
          max_daily_dd_pct := 1 / 10 }).1 = .degraded := by
  constructor
  · exact (claim_C4_eligibility_classification (fun _ => "0") (fun _ => payload_ok_zero)
      { expectancy_r := 1 / 2, profit_factor := 11 / 10 }
      { n_trades := 20, expectancy_r := 1 / 2, profit_factor := 11 / 10,
        max_daily_dd_pct := 1 / 100 }).2.2.1.mpr
      ⟨by norm_num,
        Or.inr (Or.inl (by norm_num [cond_pf_low]))⟩
  · exact (claim_C4_eligibility_classification (fun _ => "0") (fun _ => payload_ok_zero)
      { expectancy_r := 1 / 2, profit_factor := 13 / 10 }
      { n_trades := 20, expectancy_r := 1 / 2, profit_factor := 13 / 10,
        max_daily_dd_pct := 1 / 10 }).2.2.2.mpr
      ⟨by norm_num, by norm_num [cond_exp_neg], by norm_num [cond_pf_low],
        by norm_num [note_count, cond_exp_neg, cond_pf_low, cond_dd_high,
          cond_exp_dropped, cond_pf_dropped],
        by norm_num [note_count, cond_exp_neg, cond_pf_low, cond_dd_high,
          cond_exp_dropped, cond_pf_dropped]⟩

/-! ### Tiered shortlists (`src/envolees/output/compare.py`)

`compute_oos_score` calls `math.log`; the embedding abstracts the float
logarithm as a parameter `log : ℚ → ℚ`, since none of the claims about the
shortlist structure depend on its values. -/

/-- One row of `comparison_ref.csv`, restricted to the columns read by
`_generate_shortlist_for_tier`. -/
structure CompRow where
  ticker : String
  oos_trades : ℕ
  oos_expectancy : ℚ
  oos_pf : ℚ
  oos_dd : ℚ
  is_dd : ℚ
deriving DecidableEq, Repr

/-- `TieredShortlistConfig` dataclass. -/
structure TieredShortlistConfig where
  tier1_min_trades : ℕ
  tier2_min_trades : ℕ
  min_pf_oos : ℚ
  min_expectancy_oos : ℚ
  dd_cap : ℚ
  weight_expectancy : ℚ
  weight_pf : ℚ
  weight_dd : ℚ
  min_score : ℚ
  max_tickers : ℕ
deriving Repr

/-- The dataclass defaults of `TieredShortlistConfig`. -/
def default_tiered_cfg : TieredShortlistConfig :=
  { tier1_min_trades := 15
    tier2_min_trades := 10
    min_pf_oos := 6 / 5
    min_expectancy_oos := 0
    dd_cap := 12 / 1000
    weight_expectancy := 11 / 20
    weight_pf := 3 / 10
    weight_dd := 3 / 20
    min_score := 0
    max_tickers := 20 }

/-- `compute_oos_score(row, cfg)`:
`w_exp × oos_expectancy + w_pf × log(max(oos_pf, 1e-9)) − w_dd × oos_dd`. -/
def compute_oos_score (log : ℚ → ℚ) (cfg : TieredShortlistConfig) (r : CompRow) : ℚ :=
  cfg.weight_expectancy * r.oos_expectancy
    + cfg.weight_pf * log (max r.oos_pf (1 / 1000000000))
    - cfg.weight_dd * r.oos_dd

/-- The descending-score comparison used to model
`sort_values("oos_score", ascending=False)`. -/
def score_ge (log : ℚ → ℚ) (cfg : TieredShortlistConfig) (a b : CompRow) : Prop :=
  compute_oos_score log cfg b ≤ compute_oos_score log cfg a

instance (log : ℚ → ℚ) (cfg : TieredShortlistConfig) :
    DecidableRel (score_ge log cfg) := by
  unfold score_ge
  infer_instance

/-- The exclusion step and the five threshold filters of
`_generate_shortlist_for_tier`, in source order. -/
def tier_base_filter (df : List CompRow) (min_trades : ℕ)
    (cfg : TieredShortlistConfig) (exclude_tickers : List String) : List CompRow :=
  let filtered := if exclude_tickers.isEmpty then df
    else df.filter (fun r => ¬ exclude_tickers.contains r.ticker)
  ((((filtered.filter (fun r => min_trades ≤ r.oos_trades)).filter
      (fun r => cfg.min_pf_oos ≤ r.oos_pf)).filter
      (fun r => cfg.min_expectancy_oos < r.oos_expectancy)).filter
      (fun r => r.oos_dd ≤ cfg.dd_cap)).filter
      (fun r => r.is_dd ≤ cfg.dd_cap)

/-- `_generate_shortlist_for_tier(df, min_trades, cfg, exclude_tickers)`:
drop excluded tickers, apply the five threshold filters, return empty on an
empty survivor set, optionally apply the `min_score` filter, rank by
descending score and keep the top `max_tickers`. -/
def generate_shortlist_for_tier (log : ℚ → ℚ) (df : List CompRow) (min_trades : ℕ)
    (cfg : TieredShortlistConfig) (exclude_tickers : List String) : List CompRow :=
  let filtered := tier_base_filter df min_trades cfg exclude_tickers
  if filtered = [] then []
  else
    let filtered := if 0 < cfg.min_score then
        filtered.filter (fun r => cfg.min_score ≤ compute_oos_score log cfg r)
      else filtered
    (List.insertionSort (score_ge log cfg) filtered).take cfg.max_tickers

/-- `export_tiered_shortlists`: tier 1 with the strict trade minimum and no
exclusions, tier 2 with the relaxed minimum excluding tier-1 tickers, and
the combined `shortlist_tradable`, which is the plain concatenation
`pd.concat([tier1, tier2])`. -/
def export_tiered_shortlists (log : ℚ → ℚ) (df : List CompRow)
    (cfg : TieredShortlistConfig) : List CompRow × List CompRow × List CompRow :=
  let tier1 := generate_shortlist_for_tier log df cfg.tier1_min_trades cfg []
  let tier1_tickers := tier1.map CompRow.ticker
  let tier2 := generate_shortlist_for_tier log df cfg.tier2_min_trades cfg tier1_tickers
  (tier1, tier2, tier1 ++ tier2)

set_option maxHeartbeats 4000000 in
theorem export_tiered_fst (log : ℚ → ℚ) (df : List CompRow)
    (cfg : TieredShortlistConfig) :
    (export_tiered_shortlists log df cfg).1 =
      generate_shortlist_for_tier log df cfg.tier1_min_trades cfg [] := rfl

set_option maxHeartbeats 4000000 in
theorem export_tiered_snd (log : ℚ → ℚ) (df : List CompRow)
    (cfg : TieredShortlistConfig) :
    (export_tiered_shortlists log df cfg).2.1 =
      generate_shortlist_for_tier log df cfg.tier2_min_trades cfg
        ((export_tiered_shortlists log df cfg).1.map CompRow.ticker) := rfl

set_option maxHeartbeats 4000000 in
theorem export_tiered_combined (log : ℚ → ℚ) (df : List CompRow)
    (cfg : TieredShortlistConfig) :
    (export_tiered_shortlists log df cfg).2.2 =
      (export_tiered_shortlists log df cfg).1 ++
        (export_tiered_shortlists log df cfg).2.1 := rfl

theorem mem_generate_shortlist_base (log : ℚ → ℚ) (df : List CompRow)
    (min_trades : ℕ) (cfg : TieredShortlistConfig) (excl : List String)
    {r : CompRow}
    (hr : r ∈ generate_shortlist_for_tier log df min_trades cfg excl) :
    r ∈ tier_base_filter df min_trades cfg excl := by
  unfold generate_shortlist_for_tier at hr
  dsimp only at hr
  split at hr
  · exact absurd hr (List.not_mem_nil r)
  · have hr1 := List.take_subset _ _ hr
    have hr2 := (List.perm_insertionSort (score_ge log cfg) _).mem_iff.mp hr1
    split at hr2
    · exact (List.mem_filter.mp hr2).1
    · exact hr2

set_option maxHeartbeats 1000000 in
theorem mem_generate_shortlist_excluded (log : ℚ → ℚ) (df : List CompRow)
    (min_trades : ℕ) (cfg : TieredShortlistConfig) (e : String) (es : List String)
    {r : CompRow}
    (hr : r ∈ generate_shortlist_for_tier log df min_trades cfg (e :: es)) :
    ¬ (e :: es).contains r.ticker = true := by
  have hb := mem_generate_shortlist_base log df min_trades cfg (e :: es) hr
  unfold tier_base_filter at hb
  dsimp only at hb
  simp only [List.mem_filter] at hb
  have hin := hb.1.1.1.1.1
  rw [if_neg (by simp)] at hin
  have := (List.mem_filter.mp hin).2
  simpa using this

theorem sorted_generate_shortlist (log : ℚ → ℚ) (df : List CompRow)
    (min_trades : ℕ) (cfg : TieredShortlistConfig) (excl : List String) :
    List.Sorted (score_ge log cfg)
      (generate_shortlist_for_tier log df min_trades cfg excl) := by
  haveI : IsTotal CompRow (score_ge log cfg) :=
    ⟨fun a b => le_total (compute_oos_score log cfg b) (compute_oos_score log cfg a)⟩
  haveI : IsTrans CompRow (score_ge log cfg) :=
    ⟨fun _ _ _ hab hbc => le_trans hbc hab⟩
  unfold generate_shortlist_for_tier
  dsimp only
  split
  · exact List.sorted_nil
  · exact List.Pairwise.sublist (List.take_sublist _ _)
      (List.sorted_insertionSort (score_ge log cfg) _)

/-- Claim C9 (amended): the tier-1 and tier-2 shortlists contain disjoint
ticker sets (tier 2 excludes every tier-1 ticker), `shortlist_tradable` is
exactly tier 1 followed by tier 2 (so its members are the union of the two
tiers, in tier order), and each tier is internally sorted by descending
composite OOS score; the concatenation is NOT re-sorted globally. -/
theorem claim_C9_tiered_shortlists (log : ℚ → ℚ) (df : List CompRow)
    (cfg : TieredShortlistConfig) :
    (∀ a ∈ (export_tiered_shortlists log df cfg).1,
      ∀ b ∈ (export_tiered_shortlists log df cfg).2.1, a.ticker ≠ b.ticker)
    ∧ (∀ r, r ∈ (export_tiered_shortlists log df cfg).2.2 ↔
        r ∈ (export_tiered_shortlists log df cfg).1 ∨
          r ∈ (export_tiered_shortlists log df cfg).2.1)
    ∧ List.Sorted (score_ge log cfg) (export_tiered_shortlists log df cfg).1
    ∧ List.Sorted (score_ge log cfg) (export_tiered_shortlists log df cfg).2.1 := by
  refine ⟨?_, ?_, ?_, ?_⟩
  · intro a ha b hb
    rw [export_tiered_snd] at hb
    cases hmap : (export_tiered_shortlists log df cfg).1.map CompRow.ticker with
    | nil =>
      rw [List.map_eq_nil] at hmap
      rw [hmap] at ha
      exact absurd ha (List.not_mem_nil a)
    | cons e es =>
      rw [hmap] at hb
      have hb' := mem_generate_shortlist_excluded log df cfg.tier2_min_trades cfg e es hb
      intro heq
      apply hb'
      apply List.elem_eq_true_of_mem
      rw [← hmap]
      exact List.mem_map.mpr ⟨a, ha, heq⟩
  · intro r
    rw [export_tiered_combined]
    exact List.mem_append
  · rw [export_tiered_fst]
    exact sorted_generate_shortlist log df cfg.tier1_min_trades cfg []
  · rw [export_tiered_snd]
    exact sorted_generate_shortlist log df cfg.tier2_min_trades cfg _

/-- The abstract float logarithm instantiated by the C9 concrete inputs;
both concrete rows share the same `oos_pf`, so the log term cancels in
every score comparison and the choice of function is immaterial. -/
def log0 : ℚ → ℚ := fun _ => 0

/-- Shortlist row passing tier 1: 20 OOS trades, tiny expectancy. -/
def rowA : CompRow :=
  { ticker := "AAA", oos_trades := 20, oos_expectancy := 1 / 1000,
    oos_pf := 6 / 5, oos_dd := 1 / 100, is_dd := 1 / 100 }

/-- Shortlist row passing only tier 2 (12 trades) but with a far larger
score. -/
def rowB : CompRow :=
  { ticker := "BBB", oos_trades := 12, oos_expectancy := 10,
    oos_pf := 6 / 5, oos_dd := 0, is_dd := 0 }

/-- Counterexample to Claim C9 as stated: `shortlist_tradable` is
`[rowA, rowB]` (tier 1 then tier 2) although `rowB` scores strictly higher
than `rowA`, so the combined table is not ordered by descending composite
OOS score. -/
theorem claim_C9_counterexample :
    (export_tiered_shortlists log0 [rowA, rowB] default_tiered_cfg).2.2 = [rowA, rowB]
    ∧ compute_oos_score log0 default_tiered_cfg rowA <
        compute_oos_score log0 default_tiered_cfg rowB := by
  have hstr : ¬(("BBB" : String) = "AAA") := by decide
  constructor
  · norm_num [export_tiered_shortlists, generate_shortlist_for_tier, tier_base_filter,
      default_tiered_cfg, rowA, rowB, compute_oos_score, log0, List.insertionSort,
      List.orderedInsert, score_ge, hstr]
  · norm_num [compute_oos_score, log0, rowA, rowB, default_tiered_cfg]

/-- Witness for Claim C9 (amended) at the two-row table: the tiers are
`[rowA]` and `[rowB]`, and the theorem yields `"AAA" ≠ "BBB"` together with
the membership characterisation of the combined list. -/
theorem claim_C9_tiered_shortlists_witness :
    rowA.ticker ≠ rowB.ticker
    ∧ (rowA ∈ (export_tiered_shortlists log0 [rowA, rowB] default_tiered_cfg).2.2 ↔
        rowA ∈ (export_tiered_shortlists log0 [rowA, rowB] default_tiered_cfg).1 ∨
          rowA ∈ (export_tiered_shortlists log0 [rowA, rowB] default_tiered_cfg).2.1) := by
  have hstr : ¬(("BBB" : String) = "AAA") := by decide
  have h1 : (export_tiered_shortlists log0 [rowA, rowB] default_tiered_cfg).1 = [rowA] := by
    norm_num [export_tiered_shortlists, generate_shortlist_for_tier, tier_base_filter,
      default_tiered_cfg, rowA, rowB, compute_oos_score, log0, List.insertionSort,
      List.orderedInsert, score_ge, hstr]
  have h2 : (export_tiered_shortlists log0 [rowA, rowB] default_tiered_cfg).2.1 = [rowB] := by
    norm_num [export_tiered_shortlists, generate_shortlist_for_tier, tier_base_filter,
      default_tiered_cfg, rowA, rowB, compute_oos_score, log0, List.insertionSort,
      List.orderedInsert, score_ge, hstr]
  constructor
  · exact (claim_C9_tiered_shortlists log0 [rowA, rowB] default_tiered_cfg).1
      rowA (by rw [h1]; exact List.mem_singleton.mpr rfl)
      rowB (by rw [h2]; exact List.mem_singleton.mpr rfl)
  · exact (claim_C9_tiered_shortlists log0 [rowA, rowB] default_tiered_cfg).2.1 rowA

/-! ### Indicator kernels (`src/envolees/indicators/`)

Each kernel is embedded on fully numeric input, with `Option ℚ` cells and
`none` standing for a pandas NaN.  `rollingApply n f` models
`rolling(n, min_periods=n).agg(f)`: the cell at `i` is defined exactly when
the window `[i+1-n, i]` is full. -/

/-- The full window of length `n` ending at index `i`. -/
def windowAt (xs : List ℚ) (i n : ℕ) : List ℚ := (xs.take (i + 1)).drop (i + 1 - n)

/-- `series.rolling(n, min_periods=n).agg(f)` on numeric input. -/
def rollingApply (n : ℕ) (f : List ℚ → ℚ) (xs : List ℚ) : List (Option ℚ) :=
  (List.range xs.length).map fun i =>
    if n ≤ i + 1 then some (f (windowAt xs i n)) else none

/-- Arithmetic mean of a window (`Series.mean`). -/
def lmean (l : List ℚ) : ℚ := l.sum / l.length

/-- Maximum of a window (`Series.max`). -/
def lmax : List ℚ → ℚ
  | [] => 0
  | x :: xs => xs.foldl max x

/-- Minimum of a window (`Series.min`). -/
def lmin : List ℚ → ℚ
  | [] => 0
  | x :: xs => xs.foldl min x

/-- `compute_ema(series, period)` = `series.ewm(span=period,
adjust=False).mean()`: the recursive form `y₀ = x₀`,
`yₜ = (1-α)yₜ₋₁ + αxₜ` with `α = 2/(period+1)`.  On numeric input pandas
emits a value from the very first bar — there is no NaN warm-up. -/
def compute_ema (period : ℕ) (xs : List ℚ) : List (Option ℚ) :=
  match xs with
  | [] => []
  | x :: rest =>
    let a : ℚ := 2 / ((period : ℚ) + 1)
    (rest.scanl (fun y v => (1 - a) * y + a * v) x).map some

/-- True Range continuation: bars are `(high, low, close)` triples and
`prev` is the previous bar, so
`TR = max(|h-l|, |h-prev_close|, |l-prev_close|)`. -/
def true_ranges_from (prev : ℚ × ℚ × ℚ) : List (ℚ × ℚ × ℚ) → List ℚ
  | [] => []
  | b :: rest =>
    max |b.1 - b.2.1| (max |b.1 - prev.2.2| |b.2.1 - prev.2.2|) ::
      true_ranges_from b rest

/-- The TR series: at the first bar `prev_close` is NaN, and the pandas
`max(axis=1)` skips NaN, so `TR₀ = |h₀-l₀|`. -/
def true_ranges : List (ℚ × ℚ × ℚ) → List ℚ
  | [] => []
  | b :: rest => |b.1 - b.2.1| :: true_ranges_from b rest

/-- `compute_atr(df, period)`: rolling arithmetic mean of TR with
`min_periods=period`. -/
def compute_atr (period : ℕ) (bars : List (ℚ × ℚ × ℚ)) : List (Option ℚ) :=
  rollingApply period lmean (true_ranges bars)

/-- `Series.shift(s)`: prepend `s` NaNs and drop the tail. -/
def shift_series (s : ℕ) (xs : List (Option ℚ)) : List (Option ℚ) :=
  (List.replicate s none ++ xs).take xs.length

/-- `compute_donchian` upper channel: rolling max of High over `period`
bars, shifted by `shift` (default 1 in the source) against look-ahead.
Bars are `(high, low)` pairs. -/
def compute_donchian_high (period shift : ℕ) (bars : List (ℚ × ℚ)) :
    List (Option ℚ) :=
  shift_series shift (rollingApply period lmax (bars.map Prod.fst))

/-- `compute_donchian` lower channel: rolling min of Low, shifted. -/
def compute_donchian_low (period shift : ℕ) (bars : List (ℚ × ℚ)) :
    List (Option ℚ) :=
  shift_series shift (rollingApply period lmin (bars.map Prod.snd))

/-- `Series.quantile(q)` with the default linear interpolation: sort the
window, take `h = q(n-1)`, interpolate between the neighbouring order
statistics. -/
def quantile_linear (q : ℚ) (l : List ℚ) : ℚ :=
  let s := List.insertionSort (· ≤ ·) l
  let n := s.length
  let h := q * ((n : ℚ) - 1)
  let lo := ⌊h⌋.toNat
  let x := s.getD lo 0
  let y := s.getD (lo + 1) x
  x + (h - (lo : ℚ)) * (y - x)

/-- `series.rolling(window, min_periods=window).quantile(q)` — the
volatility filter of `prepare_indicators`. -/
def rolling_quantile (window : ℕ) (q : ℚ) (xs : List ℚ) : List (Option ℚ) :=
  rollingApply window (quantile_linear q) xs

theorem rollingApply_length (n : ℕ) (f : List ℚ → ℚ) (xs : List ℚ) :
    (rollingApply n f xs).length = xs.length := by
  simp [rollingApply]

theorem rollingApply_getElem (n : ℕ) (f : List ℚ → ℚ) (xs : List ℚ) (i : ℕ)
    (h : i < xs.length) :
    (rollingApply n f xs)[i]? =
      some (if n ≤ i + 1 then some (f (windowAt xs i n)) else none) := by
  unfold rollingApply
  rw [List.getElem?_map, List.getElem?_range h]
  rfl

theorem true_ranges_from_length (prev : ℚ × ℚ × ℚ) (l : List (ℚ × ℚ × ℚ)) :
    (true_ranges_from prev l).length = l.length := by
  induction l generalizing prev with
  | nil => rfl
  | cons b rest ih => simp [true_ranges_from, ih]

theorem true_ranges_length (l : List (ℚ × ℚ × ℚ)) :
    (true_ranges l).length = l.length := by
  cases l with
  | nil => rfl
  | cons b rest => simp [true_ranges, true_ranges_from_length]

theorem shift_series_getElem (s : ℕ) (xs : List (Option ℚ)) (i : ℕ)
    (h : i < xs.length) :
    (shift_series s xs)[i]? = if i < s then some none else xs[i - s]? := by
  unfold shift_series
  rw [List.getElem?_take_of_lt h]
  by_cases hs : i < s
  · rw [if_pos hs,
      List.getElem?_append_left (by simpa [List.length_replicate] using hs)]
    simp [List.getElem?_replicate, hs]
  · rw [if_neg hs,
      List.getElem?_append_right (by simp [List.length_replicate]; omega)]
    simp [List.length_replicate]

/-- Claim C8 (amended): indicator warm-up behaviour on fully numeric input.
EMA (`ewm(span, adjust=False)`) has NO NaN warm-up: every output cell is a
number, from the very first bar.  ATR and the rolling quantile have exactly
`period - 1` leading NaNs: the cell at `i` is NaN iff `i + 1 < period`.
Donchian (shift = 1 in the source) has exactly `period` leading NaNs: the
cell at `i` is NaN iff `i < period`. -/
theorem claim_C8_indicator_warmup (period window : ℕ) (q : ℚ) (xs : List ℚ)
    (bars : List (ℚ × ℚ × ℚ)) (hl : List (ℚ × ℚ)) (i : ℕ) :
    (∀ y ∈ compute_ema period xs, y.isSome)
    ∧ (compute_ema period xs).length = xs.length
    ∧ (i < bars.length →
        ((compute_atr period bars)[i]? = some none ↔ i + 1 < period))
    ∧ (1 ≤ period → i < hl.length →
        ((compute_donchian_high period 1 hl)[i]? = some none ↔ i < period))
    ∧ (1 ≤ period → i < hl.length →
        ((compute_donchian_low period 1 hl)[i]? = some none ↔ i < period))
    ∧ (i < xs.length →
        ((rolling_quantile window q xs)[i]? = some none ↔ i + 1 < window)) := by
  have hroll : ∀ (n : ℕ) (f : List ℚ → ℚ) (ys : List ℚ) (j : ℕ), j < ys.length →
      ((rollingApply n f ys)[j]? = some none ↔ j + 1 < n) := by
    intro n f ys j hj
    rw [rollingApply_getElem n f ys j hj]
    by_cases hn : n ≤ j + 1
    · simp [hn] <;> omega
    · simp [hn] <;> omega
  have hdon : ∀ (prices : List ℚ) (f : List ℚ → ℚ), 1 ≤ period → i < prices.length →
      ((shift_series 1 (rollingApply period f prices))[i]? = some none ↔ i < period) := by
    intro prices f hp hi
    rw [shift_series_getElem 1 _ i (by rw [rollingApply_length]; exact hi)]
    by_cases h1 : i < 1
    · simp [h1]
      omega
    · rw [if_neg h1]
      rw [hroll period f prices (i - 1) (by omega)]
      omega
  refine ⟨?_, ?_, ?_, ?_, ?_, ?_⟩
  · intro y hy
    cases xs with
    | nil => simp [compute_ema] at hy
    | cons x rest =>
      simp only [compute_ema, List.mem_map] at hy
      obtain ⟨v, -, rfl⟩ := hy
      rfl
  · cases xs with
    | nil => rfl
    | cons x rest => simp [compute_ema, List.length_scanl]
  · intro hi
    exact hroll period lmean (true_ranges bars) i (by rw [true_ranges_length]; exact hi)
  · intro hp hi
    exact hdon (hl.map Prod.fst) lmax hp (by simpa using hi)
  · intro hp hi
    exact hdon (hl.map Prod.snd) lmin hp (by simpa using hi)
  · intro hi
    exact hroll window (quantile_linear q) xs i hi

/-- Counterexample to Claim C8 as stated: with `period = 3` the EMA of
`[1, 2, 3]` already has a numeric first cell (the claim says the first two
cells are NaN), and with `period = 2` the Donchian upper channel of three
bars is still NaN at index `period - 1 = 1` (the claim says cells from
index `period - 1` on are numeric). -/
theorem claim_C8_counterexample :
    (compute_ema 3 [1, 2, 3])[0]? = some (some 1)
    ∧ (compute_donchian_high 2 1 [(1, 0), (2, 0), (3, 0)])[1]? = some none := by
  constructor
  · norm_num [compute_ema, List.scanl]
  · norm_num [compute_donchian_high, shift_series, rollingApply, windowAt, lmax,
      List.replicate]

/-- Witness for Claim C8 (amended) at concrete inputs: ATR with period 3 is
NaN at index 1 and the Donchian upper channel with period 2 is NaN at
index 1. -/
theorem claim_C8_indicator_warmup_witness :
    (compute_atr 3 [(2, 1, 1), (2, 1, 1), (2, 1, 1)])[1]? = some none
    ∧ (compute_donchian_high 2 1 [(1, 0), (2, 0), (3, 0)])[1]? = some none := by
  constructor
  · exact ((claim_C8_indicator_warmup 3 2 (1 / 2) [] [(2, 1, 1), (2, 1, 1), (2, 1, 1)]
      [] 1).2.2.1 (by norm_num)).mpr (by norm_num)
  · exact ((claim_C8_indicator_warmup 2 2 (1 / 2) [] []
      [(1, 0), (2, 0), (3, 0)] 1).2.2.2.1 (by norm_num) (by norm_num)).mpr (by norm_num)

end Envolees
